import Mathlib

/-!
Verification of the presentation playback engine of the Fire TV kiosk
application. The definitions below are a shallow embedding of the
presentation screen logic (the later version, with stall recovery and the
remote command channel) and of the remote command dispatch of the status
service. Each handler is modelled as a pure function from the screen state
to a new screen state together with the list of timeouts it schedules;
scheduled timeouts are applied through an explicit action type.
-/

namespace AD0631

/-- A slide of a presentation: identifier, display duration in seconds and
the image reference. -/
structure Slide where
  id : Nat
  duration : Nat
  imageUrl : String
deriving DecidableEq

/-- A loaded presentation: identifier and its ordered slides. -/
structure Presentation where
  pid : Nat
  slides : List Slide
deriving DecidableEq

/-- Placeholder slide used for out-of-range list reads. -/
def defaultSlide : Slide :=
  { id := 0, duration := 0, imageUrl := "" }

/-- Actions a scheduled timeout performs when it fires: clearing the
slide-change guard after the 500 ms debounce, the 5 s assigned-session
auto-restart, the 2 s image-error auto-skip, and the per-slide
stuck-detection forced advance. -/
inductive TimeoutAction where
  | clearGuard
  | assignedRestart
  | errorSkip
  | stuckForceNext
deriving DecidableEq

/-- A scheduled timeout: its delay in milliseconds and its action. -/
structure Timeout where
  delay : Nat
  action : TimeoutAction
deriving DecidableEq

/-- The mutable state of the presentation screen: component state,
refs and the session flags taken from the route parameters. -/
structure ScreenState where
  presentation : Option Presentation
  currentSlideIndex : Nat
  isPlaying : Bool
  isLooping : Bool
  loopCount : Nat
  timeRemaining : Nat
  showControls : Bool
  slideChangeInProgress : Bool
  lastSlideChange : Nat
  timerActive : Bool
  imageLoadError : List Nat
  slidesPreloaded : List Nat
  errorRecoveryAttempts : Nat
  assigned : Bool
  navBack : Bool
  errorMsg : Option String
  loading : Bool
deriving DecidableEq

/-- Bound on automatic image-error recovery attempts. -/
def maxErrorRecoveryAttempts : Nat := 3

/-- The nextSlide handler. It is a no-op when no presentation is loaded or
the slide-change guard is set; otherwise it sets the guard, then either
advances the index, wraps around while looping (incrementing the loop
counter, with a memory cleanup every fifth loop), or handles the end of a
non-looping sequence. In the assigned end-of-sequence branch the handler
returns early, so only the 5 s auto-restart is scheduled and the 500 ms
guard-clearing timeout is not. -/
def nextSlide (now : Nat) (s : ScreenState) : ScreenState × List Timeout :=
  match s.presentation with
  | none => (s, [])
  | some p =>
    if s.slideChangeInProgress then (s, [])
    else
      let s1 := { s with slideChangeInProgress := true }
      if (s.currentSlideIndex : Int) < (p.slides.length : Int) - 1 then
        ({ s1 with currentSlideIndex := s.currentSlideIndex + 1,
                   lastSlideChange := now },
         [⟨500, TimeoutAction.clearGuard⟩])
      else if s.isLooping then
        ({ s1 with currentSlideIndex := 0,
                   loopCount := s.loopCount + 1,
                   lastSlideChange := now,
                   imageLoadError :=
                     if 0 < s.loopCount ∧ s.loopCount % 5 = 0 then [] else s.imageLoadError,
                   slidesPreloaded :=
                     if 0 < s.loopCount ∧ s.loopCount % 5 = 0 then [] else s.slidesPreloaded },
         [⟨500, TimeoutAction.clearGuard⟩])
      else
        let s2 := { s1 with isPlaying := false, currentSlideIndex := 0, showControls := true }
        if s.assigned then (s2, [⟨5000, TimeoutAction.assignedRestart⟩])
        else (s2, [⟨500, TimeoutAction.clearGuard⟩])

/-- The previousSlide handler. The index moves back one slide only when it
is positive and the guard is clear, but the controls are shown
unconditionally, also when the guard blocks the move. -/
def previousSlide (now : Nat) (s : ScreenState) : ScreenState × List Timeout :=
  if 0 < s.currentSlideIndex ∧ ¬s.slideChangeInProgress then
    ({ s with slideChangeInProgress := true,
              currentSlideIndex := s.currentSlideIndex - 1,
              lastSlideChange := now,
              showControls := true },
     [⟨500, TimeoutAction.clearGuard⟩])
  else
    ({ s with showControls := true }, [])

/-- The goToSlide handler: the jump happens only for an index inside the
valid range with the guard clear, and otherwise nothing at all changes. -/
def goToSlide (index : Int) (now : Nat) (s : ScreenState) : ScreenState × List Timeout :=
  let len : Int := (s.presentation.map (fun p => (p.slides.length : Int))).getD 0
  if 0 ≤ index ∧ index < len ∧ ¬s.slideChangeInProgress then
    ({ s with slideChangeInProgress := true,
              currentSlideIndex := index.toNat,
              lastSlideChange := now,
              showControls := true },
     [⟨500, TimeoutAction.clearGuard⟩])
  else (s, [])

/-- The restartPresentation handler: clears the guard, resets the index,
the loop counter and the error-recovery state, and resumes playback. -/
def restartPresentation (now : Nat) (s : ScreenState) : ScreenState :=
  { s with slideChangeInProgress := false,
           currentSlideIndex := 0,
           loopCount := 0,
           isPlaying := true,
           showControls := true,
           imageLoadError := [],
           slidesPreloaded := [],
           lastSlideChange := now,
           errorRecoveryAttempts := 0 }

/-- The togglePlayPause handler. -/
def togglePlayPause (s : ScreenState) : ScreenState :=
  { s with isPlaying := !s.isPlaying, showControls := true }

/-- The toggleLoop handler. -/
def toggleLoop (s : ScreenState) : ScreenState :=
  { s with isLooping := !s.isLooping, showControls := true }

/-- The retryLoadPresentation handler: clears the error and preload state,
resets the recovery counter and starts a reload. -/
def retryLoadPresentation (s : ScreenState) : ScreenState :=
  { s with errorMsg := none,
           imageLoadError := [],
           slidesPreloaded := [],
           errorRecoveryAttempts := 0,
           loading := true }

/-- Stopping the slide interval timer. -/
def stopSlideTimer (s : ScreenState) : ScreenState :=
  { s with timerActive := false }

/-- The startSlideTimer handler: refuses to arm when nothing is loaded or
a slide change is in progress; otherwise arms the countdown with the
current slide duration clamped below at 1000 ms and timestamps the slide
change. -/
def startSlideTimer (now : Nat) (s : ScreenState) : ScreenState :=
  match s.presentation with
  | none => s
  | some p =>
    if p.slides.length = 0 then s
    else if s.slideChangeInProgress then s
    else
      { s with timerActive := true,
               timeRemaining :=
                 max ((p.slides.getD s.currentSlideIndex defaultSlide).duration * 1000) 1000,
               lastSlideChange := now }

/-- One 100 ms tick of the slide interval timer: decrement the remaining
time, and on expiry invoke nextSlide and pin the remaining time at zero. -/
def timerTick (now : Nat) (s : ScreenState) : ScreenState × List Timeout :=
  if s.timerActive then
    if s.timeRemaining ≤ 100 then
      let r := nextSlide now s
      ({ r.1 with timeRemaining := 0 }, r.2)
    else ({ s with timeRemaining := s.timeRemaining - 100 }, [])
  else (s, [])

/-- The timer effect that runs after any change of the playing flag, the
index or the presentation: while playing with slides present it re-arms
the slide timer and schedules the per-slide stuck-detection timeout at the
unclamped slide duration plus 5 s; otherwise it stops the timer. -/
def timerEffect (now : Nat) (s : ScreenState) : ScreenState × List Timeout :=
  match s.presentation with
  | none => (stopSlideTimer s, [])
  | some p =>
    if s.isPlaying ∧ 0 < p.slides.length then
      (startSlideTimer now s,
       [⟨(p.slides.getD s.currentSlideIndex defaultSlide).duration * 1000 + 5000,
         TimeoutAction.stuckForceNext⟩])
    else (stopSlideTimer s, [])

/-- Applying a fired timeout to the current state. The image-error skip
advances only while playing with more than one slide; the stuck-detection
timeout stops the timer and forces nextSlide while playing. -/
def applyTimeoutAction (a : TimeoutAction) (now : Nat) (s : ScreenState) :
    ScreenState × List Timeout :=
  match a with
  | TimeoutAction.clearGuard => ({ s with slideChangeInProgress := false }, [])
  | TimeoutAction.assignedRestart => ({ s with isLooping := true, isPlaying := true }, [])
  | TimeoutAction.errorSkip =>
    match s.presentation with
    | some p => if s.isPlaying ∧ 1 < p.slides.length then nextSlide now s else (s, [])
    | none => (s, [])
  | TimeoutAction.stuckForceNext =>
    match s.presentation with
    | some _ => if s.isPlaying then nextSlide now (stopSlideTimer s) else (s, [])
    | none => (s, [])

/-- The handleImageError handler: marks the slide as errored, bumps the
single session-wide recovery counter and, while the counter is still
within the bound, schedules the 2 s auto-skip. -/
def handleImageError (slideId : Nat) (s : ScreenState) : ScreenState × List Timeout :=
  let s1 := { s with imageLoadError := slideId :: s.imageLoadError,
                     errorRecoveryAttempts := s.errorRecoveryAttempts + 1 }
  if s1.errorRecoveryAttempts ≤ maxErrorRecoveryAttempts then
    (s1, [⟨2000, TimeoutAction.errorSkip⟩])
  else (s1, [])

/-- A remote command as delivered by the status service: its command
string and the optional slide index parameter. -/
structure RemoteCommand where
  command : String
  slide_index : Option Int
deriving DecidableEq

/-- The handleRemoteCommand callback of the presentation screen: the seven
playback commands are dispatched to the corresponding handlers and every
other command string falls through the switch unchanged. -/
def handleRemoteCommand (c : RemoteCommand) (now : Nat) (s : ScreenState) :
    ScreenState × List Timeout :=
  if c.command = "play" then ({ s with isPlaying := true, showControls := true }, [])
  else if c.command = "pause" then ({ s with isPlaying := false, showControls := true }, [])
  else if c.command = "stop" then ({ s with isPlaying := false, navBack := true }, [])
  else if c.command = "restart" then (restartPresentation now s, [])
  else if c.command = "next_slide" then nextSlide now s
  else if c.command = "prev_slide" then previousSlide now s
  else if c.command = "goto_slide" then
    match c.slide_index with
    | some i => goToSlide i now s
    | none => (s, [])
  else (s, [])

/-- The recovery actions the 20 s stability monitor can take on one check:
nothing, the global-stall full restart, the single-slide-stall forced
advance, or the end-of-loop forced wraparound. -/
inductive WatchdogAction where
  | idle
  | restartAll
  | forceNext
  | forceWrap
deriving DecidableEq

/-- One check of the stability monitor. The global stall check fires after
2 minutes without a slide change; the single-slide stall check fires only
below the last slide once the slide is overdue by more than its duration
plus a 10 s margin; the end-of-loop check fires on the last slide while
looping once overdue by more than the duration plus 15 s. -/
def stabilityCheckAction (now : Nat) (s : ScreenState) : WatchdogAction :=
  let t : Int := (now : Int) - (s.lastSlideChange : Int)
  if s.isPlaying ∧ 120000 < t then WatchdogAction.restartAll
  else
    match s.presentation with
    | none => WatchdogAction.idle
    | some p =>
      let d : Int := ((p.slides.getD s.currentSlideIndex defaultSlide).duration : Int) * 1000
      if s.isPlaying ∧ (s.currentSlideIndex : Int) < (p.slides.length : Int) - 1 ∧
         d + 10000 < t then WatchdogAction.forceNext
      else if s.isPlaying ∧ s.isLooping ∧
              (s.currentSlideIndex : Int) = (p.slides.length : Int) - 1 ∧
              d + 15000 < t then WatchdogAction.forceWrap
      else WatchdogAction.idle

/-- Applying the selected stability monitor action to the state. -/
def stabilityStep (now : Nat) (s : ScreenState) : ScreenState × List Timeout :=
  match stabilityCheckAction now s with
  | WatchdogAction.restartAll => (restartPresentation now s, [])
  | WatchdogAction.forceNext => nextSlide now (stopSlideTimer s)
  | WatchdogAction.forceWrap =>
    ({ s with currentSlideIndex := 0, loopCount := s.loopCount + 1, lastSlideChange := now }, [])
  | WatchdogAction.idle => (s, [])

/-- A remote pause followed by the re-render of the timer effect. -/
def pauseEvent (now : Nat) (s : ScreenState) : ScreenState :=
  (timerEffect now { s with isPlaying := false, showControls := true }).1

/-- A remote play followed by the re-render of the timer effect. -/
def playEvent (now : Nat) (s : ScreenState) : ScreenState :=
  (timerEffect now { s with isPlaying := true, showControls := true }).1

/-- One advance outside the debounce window: nextSlide followed by the
firing of its guard-clearing timeout. -/
def advanceStep (now : Nat) (s : ScreenState) : ScreenState :=
  (applyTimeoutAction TimeoutAction.clearGuard now (nextSlide now s).1).1

/-- Iterated advances, each one outside the debounce window. -/
def advanceN (now : Nat) : Nat → ScreenState → ScreenState
  | 0, s => s
  | Nat.succ k, s => advanceN now k (advanceStep now s)

/-- Iterated 100 ms timer ticks. -/
def tickN (now : Nat) : Nat → ScreenState → ScreenState
  | 0, s => s
  | Nat.succ k, s => tickN now k ((timerTick now s).1)

/-- Sample slides used by the concrete witnesses and counterexamples. -/
def sampleA : Slide := { id := 1, duration := 2, imageUrl := "a" }

/-- Second sample slide. -/
def sampleB : Slide := { id := 2, duration := 3, imageUrl := "b" }

/-- Third sample slide. -/
def sampleC : Slide := { id := 3, duration := 1, imageUrl := "c" }

/-- Sample three-slide presentation. -/
def sampleP : Presentation := { pid := 7, slides := [sampleA, sampleB, sampleC] }

/-- Sample screen state: the sample presentation loaded, playing from the
first slide, not looping, guard clear. -/
def sampleState : ScreenState :=
  { presentation := some sampleP, currentSlideIndex := 0, isPlaying := true,
    isLooping := false, loopCount := 0, timeRemaining := 2000, showControls := false,
    slideChangeInProgress := false, lastSlideChange := 0, timerActive := true,
    imageLoadError := [], slidesPreloaded := [], errorRecoveryAttempts := 0,
    assigned := false, navBack := false, errorMsg := none, loading := false }

/-- Sample state with the slide-change guard raised. -/
def guardedState : ScreenState := { sampleState with slideChangeInProgress := true }

/-- Sample looping state positioned on the middle slide. -/
def loopState : ScreenState :=
  { sampleState with isLooping := true, currentSlideIndex := 1 }

/-- Sample state positioned on the last slide. -/
def lastState : ScreenState := { sampleState with currentSlideIndex := 2 }

/-- Sample assigned-session state positioned on the last slide. -/
def assignedLastState : ScreenState :=
  { sampleState with currentSlideIndex := 2, assigned := true }

/-- Sample remote command with an unhandled type. -/
def rebootCommand : RemoteCommand := { command := "reboot", slide_index := none }

/-- Sample remote play command. -/
def playCommand : RemoteCommand := { command := "play", slide_index := none }

theorem nextSlide_guard_noop (now : Nat) (u : ScreenState)
    (hu : u.slideChangeInProgress = true) : nextSlide now u = (u, []) := by
  unfold nextSlide
  cases hp : u.presentation <;> simp [hu]

theorem nextSlide_guard_after (now : Nat) (s : ScreenState) (p : Presentation)
    (hp : s.presentation = some p) (hg : s.slideChangeInProgress = false) :
    (nextSlide now s).1.slideChangeInProgress = true := by
  unfold nextSlide
  rw [hp]
  simp only [hg, Bool.false_eq_true, if_false]
  split_ifs <;> rfl

theorem goToSlide_guard_noop (idx : Int) (now : Nat) (u : ScreenState)
    (hu : u.slideChangeInProgress = true) : goToSlide idx now u = (u, []) := by
  unfold goToSlide
  rw [if_neg]
  simp [hu]

theorem previousSlide_guard (now : Nat) (u : ScreenState)
    (hu : u.slideChangeInProgress = true) :
    previousSlide now u = ({ u with showControls := true }, []) := by
  unfold previousSlide
  rw [if_neg]
  simp [hu]

/-- Claim C5: when looping is off and nextSlide fires at the last slide, playback
stops, the index resets to 0 and the loop counter is unchanged. -/
theorem c5_nonlooping_end_stops_and_resets (now : Nat) (s : ScreenState) (p : Presentation)
    (hp : s.presentation = some p) (hg : s.slideChangeInProgress = false)
    (hl : s.isLooping = false) (hi : s.currentSlideIndex + 1 = p.slides.length) :
    (nextSlide now s).1.isPlaying = false ∧
    (nextSlide now s).1.currentSlideIndex = 0 ∧
    (nextSlide now s).1.loopCount = s.loopCount := by
  unfold nextSlide
  rw [hp]
  simp only [hg, hl, Bool.false_eq_true, if_false]
  split_ifs with h1 h2 <;> first | (exfalso; omega) | exact ⟨rfl, rfl, rfl⟩

/-- Claim C1 as amended: nextSlide sets the guard when a presentation is loaded,
so a second advance-triggering event inside the debounce window is a
no-op; nextSlide and goToSlide are complete no-ops under the guard, while
previousSlide under the guard changes nothing except showing the
controls; in particular a timer expiry followed by a next slide command
within the window mutates the index exactly once. -/
theorem c1_debounce_single_index_mutation (now1 now2 now3 : Nat) (idx : Int)
    (s u : ScreenState) (p : Presentation)
    (hp : s.presentation = some p) (hg : s.slideChangeInProgress = false)
    (hu : u.slideChangeInProgress = true) :
    (nextSlide now1 s).1.slideChangeInProgress = true ∧
    nextSlide now2 (nextSlide now1 s).1 = ((nextSlide now1 s).1, []) ∧
    nextSlide now3 u = (u, []) ∧
    goToSlide idx now3 u = (u, []) ∧
    previousSlide now3 u = ({ u with showControls := true }, []) ∧
    ((s.currentSlideIndex : Int) < (p.slides.length : Int) - 1 →
      (nextSlide now1 s).1.currentSlideIndex = s.currentSlideIndex + 1) := by
  have hafter := nextSlide_guard_after now1 s p hp hg
  refine ⟨hafter, nextSlide_guard_noop now2 _ hafter, nextSlide_guard_noop now3 u hu,
    goToSlide_guard_noop idx now3 u hu, previousSlide_guard now3 u hu, ?_⟩
  intro hlt
  unfold nextSlide
  rw [hp]
  simp only [hg, Bool.false_eq_true, if_false]
  rw [if_pos hlt]

/-- Claim C6: whenever the slide timer is armed, the countdown starts at the
slide duration in milliseconds clamped below at 1000 ms, so it is always
at least 1000 ms. -/
theorem c6_min_armed_duration (now : Nat) (s : ScreenState) (p : Presentation)
    (hp : s.presentation = some p) (hne : p.slides ≠ [])
    (hg : s.slideChangeInProgress = false) :
    (startSlideTimer now s).timeRemaining =
      max ((p.slides.getD s.currentSlideIndex defaultSlide).duration * 1000) 1000 ∧
    1000 ≤ (startSlideTimer now s).timeRemaining ∧
    (startSlideTimer now s).timerActive = true := by
  have hlen : p.slides.length ≠ 0 := by
    simpa using hne
  unfold startSlideTimer
  rw [hp]
  simp only [hlen, if_false, hg, Bool.false_eq_true]
  exact ⟨trivial, le_max_right _ _, trivial⟩

/-- Claim C7: in an assigned non-looping session, nextSlide at the last slide
schedules exactly one 5 second auto-restart timeout, and firing that
timeout turns looping and playback back on. -/
theorem c7_assigned_end_auto_restarts (now now2 : Nat) (s : ScreenState) (p : Presentation)
    (hp : s.presentation = some p) (hg : s.slideChangeInProgress = false)
    (hl : s.isLooping = false) (ha : s.assigned = true)
    (hi : s.currentSlideIndex + 1 = p.slides.length) :
    (nextSlide now s).2 = [⟨5000, TimeoutAction.assignedRestart⟩] ∧
    (applyTimeoutAction TimeoutAction.assignedRestart now2 (nextSlide now s).1).1.isLooping = true ∧
    (applyTimeoutAction TimeoutAction.assignedRestart now2 (nextSlide now s).1).1.isPlaying = true := by
  refine ⟨?_, rfl, rfl⟩
  unfold nextSlide
  rw [hp]
  simp only [hg, hl, ha, Bool.false_eq_true, if_false, if_true]
  split_ifs with h1
  · exfalso; omega
  · rfl

/-- Claim C8: a goto slide command with an index outside the valid range is
rejected with no state change and nothing scheduled. -/
theorem c8_goto_out_of_range_rejected (idx : Int) (now : Nat) (s : ScreenState)
    (p : Presentation) (hp : s.presentation = some p)
    (h : idx < 0 ∨ (p.slides.length : Int) ≤ idx) :
    goToSlide idx now s = (s, []) := by
  unfold goToSlide
  rw [if_neg]
  rintro ⟨h1, h2, h3⟩
  rw [hp] at h2
  simp only [Option.map_some', Option.getD_some] at h2
  rcases h with h | h <;> omega

/-- Claim C9: a remote command whose type is none of the seven playback
commands handled by the presentation screen leaves the state untouched
and schedules nothing. -/
theorem c9_unknown_command_noop (c : RemoteCommand) (now : Nat) (s : ScreenState)
    (h1 : c.command ≠ "play") (h2 : c.command ≠ "pause") (h3 : c.command ≠ "stop")
    (h4 : c.command ≠ "restart") (h5 : c.command ≠ "next_slide")
    (h6 : c.command ≠ "prev_slide") (h7 : c.command ≠ "goto_slide") :
    handleRemoteCommand c now s = (s, []) := by
  unfold handleRemoteCommand
  simp [h1, h2, h3, h4, h5, h6, h7]

/-- Claim C2 as amended: one stability monitor check selects the single-slide
forced advance exactly when playing below the last slide, not yet past
the 2 minute global-restart threshold, and overdue by more than the slide
duration plus the 10 second grace margin; it selects the end-of-loop
forced wraparound exactly when playing on the last slide while looping,
not yet past the global-restart threshold, and overdue by more than the
slide duration plus 15 seconds; and while within the duration plus the
10 second grace margin it never selects a forced advance nor a forced
wraparound. -/
theorem c2_watchdog_force_iff_overdue (now : Nat) (s : ScreenState) (p : Presentation)
    (hp : s.presentation = some p) :
    (stabilityCheckAction now s = WatchdogAction.forceNext ↔
      (s.isPlaying = true ∧
       (now : Int) - (s.lastSlideChange : Int) ≤ 120000 ∧
       (s.currentSlideIndex : Int) < (p.slides.length : Int) - 1 ∧
       ((p.slides.getD s.currentSlideIndex defaultSlide).duration : Int) * 1000 + 10000 <
         (now : Int) - (s.lastSlideChange : Int))) ∧
    (stabilityCheckAction now s = WatchdogAction.forceWrap ↔
      (s.isPlaying = true ∧
       (now : Int) - (s.lastSlideChange : Int) ≤ 120000 ∧
       s.isLooping = true ∧
       (s.currentSlideIndex : Int) = (p.slides.length : Int) - 1 ∧
       ((p.slides.getD s.currentSlideIndex defaultSlide).duration : Int) * 1000 + 15000 <
         (now : Int) - (s.lastSlideChange : Int))) ∧
    ((now : Int) - (s.lastSlideChange : Int) ≤
        ((p.slides.getD s.currentSlideIndex defaultSlide).duration : Int) * 1000 + 10000 →
      stabilityCheckAction now s ≠ WatchdogAction.forceNext ∧
      stabilityCheckAction now s ≠ WatchdogAction.forceWrap) := by
  unfold stabilityCheckAction
  rw [hp]
  dsimp only
  split_ifs with h1 h2 h3
  · -- global restart branch
    obtain ⟨hpl, ht⟩ := h1
    refine ⟨?_, ?_, ?_⟩
    · simp only [reduceCtorEq, false_iff]
      rintro ⟨-, ht2, -, -⟩
      omega
    · simp only [reduceCtorEq, false_iff]
      rintro ⟨-, ht2, -, -, -⟩
      omega
    · intro hgr
      exact ⟨by simp, by simp⟩
  · -- forceNext branch
    obtain ⟨hpl, hlt, hod⟩ := h2
    refine ⟨?_, ?_, ?_⟩
    · simp only [true_iff]
      refine ⟨hpl, ?_, hlt, hod⟩
      by_contra hc
      exact h1 ⟨hpl, by omega⟩
    · simp only [reduceCtorEq, false_iff]
      rintro ⟨-, -, -, heq, -⟩
      omega
    · intro hgr
      exfalso
      omega
  · -- forceWrap branch
    obtain ⟨hpl, hlo, heq, hod⟩ := h3
    refine ⟨?_, ?_, ?_⟩
    · simp only [reduceCtorEq, false_iff]
      rintro ⟨-, -, hlt, -⟩
      omega
    · simp only [true_iff]
      refine ⟨hpl, ?_, hlo, heq, hod⟩
      by_contra hc
      exact h1 ⟨hpl, by omega⟩
    · intro hgr
      exfalso
      omega
  · -- idle branch
    refine ⟨?_, ?_, ?_⟩
    · simp only [reduceCtorEq, false_iff]
      rintro ⟨hpl, ht, hlt, hod⟩
      exact h2 ⟨hpl, hlt, hod⟩
    · simp only [reduceCtorEq, false_iff]
      rintro ⟨hpl, ht, hlo, heq, hod⟩
      exact h3 ⟨hpl, hlo, heq, hod⟩
    · intro hgr
      exact ⟨by simp, by simp⟩

/-- Claim C3 as amended: a pause freezes the countdown at its current value, and
a subsequent play re-arms the timer at the full clamped slide duration. -/
theorem c3_pause_freezes_play_rearms_full (now1 now2 : Nat) (s : ScreenState)
    (p : Presentation) (hp : s.presentation = some p) (hne : p.slides ≠ [])
    (hg : s.slideChangeInProgress = false) :
    (pauseEvent now1 s).timeRemaining = s.timeRemaining ∧
    (playEvent now2 s).timeRemaining =
      max ((p.slides.getD s.currentSlideIndex defaultSlide).duration * 1000) 1000 := by
  have hlen : p.slides.length ≠ 0 := by simpa using hne
  constructor
  · unfold pauseEvent timerEffect stopSlideTimer
    rw [show ({ s with isPlaying := false, showControls := true } : ScreenState).presentation
          = some p from hp]
    simp
  · unfold playEvent timerEffect startSlideTimer
    rw [show ({ s with isPlaying := true, showControls := true } : ScreenState).presentation
          = some p from hp]
    simp only [hlen, if_false, hg, Bool.false_eq_true]
    simp [hlen, Nat.pos_of_ne_zero]

theorem advanceStep_loop (now : Nat) (s : ScreenState) (p : Presentation)
    (hp : s.presentation = some p) (hl : s.isLooping = true)
    (hg : s.slideChangeInProgress = false) (hi : s.currentSlideIndex < p.slides.length) :
    (advanceStep now s).presentation = some p ∧
    (advanceStep now s).isLooping = true ∧
    (advanceStep now s).slideChangeInProgress = false ∧
    ((s.currentSlideIndex + 1 < p.slides.length ∧
        (advanceStep now s).currentSlideIndex = s.currentSlideIndex + 1 ∧
        (advanceStep now s).loopCount = s.loopCount) ∨
     (s.currentSlideIndex + 1 = p.slides.length ∧
        (advanceStep now s).currentSlideIndex = 0 ∧
        (advanceStep now s).loopCount = s.loopCount + 1)) := by
  unfold advanceStep nextSlide applyTimeoutAction
  rw [hp]
  dsimp only
  simp only [hg, Bool.false_eq_true, if_false, hl, if_true]
  split_ifs with h1 h2
  · exact ⟨rfl, rfl, trivial, Or.inl ⟨by omega, rfl, rfl⟩⟩
  · exact ⟨rfl, rfl, trivial, Or.inr ⟨by omega, rfl, rfl⟩⟩
  · exact ⟨rfl, rfl, trivial, Or.inr ⟨by omega, rfl, rfl⟩⟩

theorem advanceStep_wrap (now : Nat) (s : ScreenState) (p : Presentation)
    (hp : s.presentation = some p) (hl : s.isLooping = true)
    (hg : s.slideChangeInProgress = false)
    (hi : s.currentSlideIndex + 1 = p.slides.length) :
    (advanceStep now s).presentation = some p ∧
    (advanceStep now s).isLooping = true ∧
    (advanceStep now s).slideChangeInProgress = false ∧
    (advanceStep now s).currentSlideIndex = 0 ∧
    (advanceStep now s).loopCount = s.loopCount + 1 := by
  obtain ⟨a1, a2, a3, hcase⟩ := advanceStep_loop now s p hp hl hg (by omega)
  rcases hcase with ⟨hlt, -, -⟩ | ⟨-, h4, h5⟩
  · exact absurd hlt (by omega)
  · exact ⟨a1, a2, a3, h4, h5⟩

theorem advanceN_add (now a b : Nat) (s : ScreenState) :
    advanceN now (a + b) s = advanceN now b (advanceN now a s) := by
  induction a generalizing s with
  | zero =>
    rw [Nat.zero_add]
    rfl
  | succ a ih =>
    rw [Nat.succ_add]
    exact ih (advanceStep now s)

theorem advanceN_climb (now : Nat) : ∀ (m : Nat) (s : ScreenState) (p : Presentation),
    s.presentation = some p → s.isLooping = true → s.slideChangeInProgress = false →
    s.currentSlideIndex + m < p.slides.length →
    (advanceN now m s).presentation = some p ∧
    (advanceN now m s).isLooping = true ∧
    (advanceN now m s).slideChangeInProgress = false ∧
    (advanceN now m s).currentSlideIndex = s.currentSlideIndex + m ∧
    (advanceN now m s).loopCount = s.loopCount := by
  intro m
  induction m with
  | zero =>
    intro s p hp hl hg hi
    exact ⟨hp, hl, hg, rfl, rfl⟩
  | succ m ih =>
    intro s p hp hl hg hi
    obtain ⟨hp1, hl1, hg1, hcase⟩ := advanceStep_loop now s p hp hl hg (by omega)
    rcases hcase with ⟨hlt, hidx, hlc⟩ | ⟨heq, -, -⟩
    · obtain ⟨a1, a2, a3, a4, a5⟩ :=
        ih (advanceStep now s) p hp1 hl1 hg1 (by omega)
      refine ⟨a1, a2, a3, ?_, ?_⟩
      · show (advanceN now m (advanceStep now s)).currentSlideIndex
            = s.currentSlideIndex + (m + 1)
        rw [a4, hidx]
        omega
      · show (advanceN now m (advanceStep now s)).loopCount = s.loopCount
        rw [a5, hlc]
    · exact absurd hi (by omega)

/-- Claim C4 as amended: in a looping session, exactly slideCount advances, each
outside the debounce window, bring the index back to its starting value
and increase the loop counter by exactly one. -/
theorem c4_looping_n_advances_round_trip (now : Nat) (s : ScreenState) (p : Presentation)
    (hp : s.presentation = some p) (hl : s.isLooping = true)
    (hg : s.slideChangeInProgress = false)
    (hi : s.currentSlideIndex < p.slides.length) :
    (advanceN now p.slides.length s).currentSlideIndex = s.currentSlideIndex ∧
    (advanceN now p.slides.length s).loopCount = s.loopCount + 1 := by
  obtain ⟨b1, b2, b3, b4, b5⟩ :=
    advanceN_climb now (p.slides.length - 1 - s.currentSlideIndex) s p hp hl hg (by omega)
  obtain ⟨c1, c2, c3, c4, c5⟩ :=
    advanceStep_wrap now (advanceN now (p.slides.length - 1 - s.currentSlideIndex) s) p
      b1 b2 b3 (by omega)
  obtain ⟨e1, e2, e3, e4, e5⟩ :=
    advanceN_climb now s.currentSlideIndex
      (advanceStep now (advanceN now (p.slides.length - 1 - s.currentSlideIndex) s)) p
      c1 c2 c3 (by omega)
  have key : advanceN now p.slides.length s =
      advanceN now s.currentSlideIndex
        (advanceStep now (advanceN now (p.slides.length - 1 - s.currentSlideIndex) s)) := by
    have e0 : p.slides.length =
        ((p.slides.length - 1 - s.currentSlideIndex) + 1) + s.currentSlideIndex := by omega
    conv_lhs => rw [e0]
    rw [advanceN_add now ((p.slides.length - 1 - s.currentSlideIndex) + 1)
          s.currentSlideIndex s,
        advanceN_add now (p.slides.length - 1 - s.currentSlideIndex) 1 s]
    rfl
  rw [key]
  constructor
  · rw [e4, c4]
    omega
  · rw [e5, c5, b5]

theorem nextSlide_attempts (now : Nat) (s : ScreenState) :
    (nextSlide now s).1.errorRecoveryAttempts = s.errorRecoveryAttempts := by
  unfold nextSlide
  cases hp : s.presentation with
  | none => rfl
  | some p =>
    dsimp only
    split_ifs <;> rfl

theorem previousSlide_attempts (now : Nat) (s : ScreenState) :
    (previousSlide now s).1.errorRecoveryAttempts = s.errorRecoveryAttempts := by
  unfold previousSlide
  split_ifs <;> rfl

theorem goToSlide_attempts (idx : Int) (now : Nat) (s : ScreenState) :
    (goToSlide idx now s).1.errorRecoveryAttempts = s.errorRecoveryAttempts := by
  unfold goToSlide
  dsimp only
  split_ifs <;> rfl

theorem timerTick_attempts (now : Nat) (s : ScreenState) :
    (timerTick now s).1.errorRecoveryAttempts = s.errorRecoveryAttempts := by
  unfold timerTick
  split_ifs with h1 h2
  · exact nextSlide_attempts now s
  · rfl
  · rfl

theorem handleRemoteCommand_attempts (c : RemoteCommand) (now : Nat) (s : ScreenState)
    (h : c.command ≠ "restart") :
    (handleRemoteCommand c now s).1.errorRecoveryAttempts = s.errorRecoveryAttempts := by
  unfold handleRemoteCommand
  split_ifs <;>
    first
      | rfl
      | exact nextSlide_attempts now s
      | exact previousSlide_attempts now s
      | (cases c.slide_index with
          | none => rfl
          | some i => exact goToSlide_attempts i now s)

/-- Claim C10: every image load error, for any slide, bumps the one
session-wide recovery counter by one; the 2 second auto-skip is scheduled
exactly while that counter stays within the bound of 3, and the skip
advances only while playing with more than one slide; the counter is
reset to 0 by restartPresentation and retryLoadPresentation and preserved
by every other operation of the screen. -/
theorem c10_session_wide_error_counter (sid : Nat) (idx : Int) (c : RemoteCommand)
    (now : Nat) (s : ScreenState) (hc : c.command ≠ "restart") :
    (handleImageError sid s).1.errorRecoveryAttempts = s.errorRecoveryAttempts + 1 ∧
    ((handleImageError sid s).2 =
      if s.errorRecoveryAttempts + 1 ≤ maxErrorRecoveryAttempts then
        [⟨2000, TimeoutAction.errorSkip⟩] else []) ∧
    (s.isPlaying = false → applyTimeoutAction TimeoutAction.errorSkip now s = (s, [])) ∧
    (∀ p, s.presentation = some p → p.slides.length ≤ 1 →
      applyTimeoutAction TimeoutAction.errorSkip now s = (s, [])) ∧
    (restartPresentation now s).errorRecoveryAttempts = 0 ∧
    (retryLoadPresentation s).errorRecoveryAttempts = 0 ∧
    (nextSlide now s).1.errorRecoveryAttempts = s.errorRecoveryAttempts ∧
    (previousSlide now s).1.errorRecoveryAttempts = s.errorRecoveryAttempts ∧
    (goToSlide idx now s).1.errorRecoveryAttempts = s.errorRecoveryAttempts ∧
    (togglePlayPause s).errorRecoveryAttempts = s.errorRecoveryAttempts ∧
    (toggleLoop s).errorRecoveryAttempts = s.errorRecoveryAttempts ∧
    (startSlideTimer now s).errorRecoveryAttempts = s.errorRecoveryAttempts ∧
    (timerTick now s).1.errorRecoveryAttempts = s.errorRecoveryAttempts ∧
    (handleRemoteCommand c now s).1.errorRecoveryAttempts = s.errorRecoveryAttempts := by
  refine ⟨?_, ?_, ?_, ?_, rfl, rfl, nextSlide_attempts now s, previousSlide_attempts now s,
    goToSlide_attempts idx now s, rfl, rfl, ?_, timerTick_attempts now s,
    handleRemoteCommand_attempts c now s hc⟩
  · unfold handleImageError
    dsimp only
    split_ifs <;> rfl
  · unfold handleImageError
    dsimp only
    split_ifs with h1
    · rfl
    · rfl
  · intro hpl
    unfold applyTimeoutAction
    cases hp : s.presentation with
    | none => rfl
    | some p => simp [hpl]
  · intro p hp hlen
    unfold applyTimeoutAction
    rw [hp]
    dsimp only
    rw [if_neg]
    rintro ⟨-, h2⟩
    omega
  · unfold startSlideTimer
    cases hp : s.presentation with
    | none => rfl
    | some p =>
      dsimp only
      split_ifs <;> rfl

/-- Counterexample for C1: with the guard raised and the controls hidden,
previousSlide is not a complete no-op, since it still shows the
controls. -/
theorem c1_cex_previousSlide_shows_controls :
    guardedState.slideChangeInProgress = true ∧
    guardedState.showControls = false ∧
    (previousSlide 0 guardedState).1.showControls = true ∧
    previousSlide 0 guardedState ≠ (guardedState, []) := by decide

/-- Counterexample for C2: playing on the last slide of a non-looping
session, overdue far beyond the slide duration plus the 10 second grace,
the stability monitor still selects no action, so the stated equivalence
fails in the only-if-overdue-then-advance direction. -/
theorem c2_cex_no_force_on_last_slide :
    lastState.isPlaying = true ∧
    lastState.isLooping = false ∧
    lastState.currentSlideIndex + 1 = sampleP.slides.length ∧
    ((sampleP.slides.getD lastState.currentSlideIndex defaultSlide).duration : Int) * 1000
        + 10000 < (60000 : Int) - (lastState.lastSlideChange : Int) ∧
    stabilityCheckAction 60000 lastState = WatchdogAction.idle := by decide

/-- Counterexample for C3: after five ticks the countdown stands at
1500 ms; a pause freezes it there, but the following play re-arms the
timer at the full 2000 ms rather than resuming from 1500 ms. -/
theorem c3_cex_resume_resets_duration :
    (tickN 0 5 sampleState).timeRemaining = 1500 ∧
    (pauseEvent 0 (tickN 0 5 sampleState)).timeRemaining = 1500 ∧
    (playEvent 0 (pauseEvent 0 (tickN 0 5 sampleState))).timeRemaining = 2000 ∧
    (playEvent 0 (pauseEvent 0 (tickN 0 5 sampleState))).timeRemaining ≠
      (pauseEvent 0 (tickN 0 5 sampleState)).timeRemaining := by decide

/-- Counterexample for C4: starting a looping three-slide session from
index 1, three advances outside the debounce window wrap once but come
back to index 1, not to index 0. -/
theorem c4_cex_returns_to_start_not_zero :
    loopState.isLooping = true ∧
    loopState.slideChangeInProgress = false ∧
    loopState.currentSlideIndex = 1 ∧
    sampleP.slides.length = 3 ∧
    (advanceN 0 3 loopState).currentSlideIndex ≠ 0 ∧
    (advanceN 0 3 loopState).loopCount = loopState.loopCount + 1 := by decide

/-- Witness for C1 at the sample states. -/
theorem c1_witness_sample :
    (nextSlide 0 sampleState).1.slideChangeInProgress = true ∧
    nextSlide 0 (nextSlide 0 sampleState).1 = ((nextSlide 0 sampleState).1, []) ∧
    nextSlide 0 guardedState = (guardedState, []) ∧
    goToSlide 1 0 guardedState = (guardedState, []) ∧
    previousSlide 0 guardedState = ({ guardedState with showControls := true }, []) ∧
    ((sampleState.currentSlideIndex : Int) < (sampleP.slides.length : Int) - 1 →
      (nextSlide 0 sampleState).1.currentSlideIndex = sampleState.currentSlideIndex + 1) :=
  c1_debounce_single_index_mutation 0 0 0 1 sampleState guardedState sampleP rfl rfl rfl

/-- Witness for C2 at the sample state. -/
theorem c2_witness_sample :
    (stabilityCheckAction 20000 sampleState = WatchdogAction.forceNext ↔
      (sampleState.isPlaying = true ∧
       (20000 : Int) - (sampleState.lastSlideChange : Int) ≤ 120000 ∧
       (sampleState.currentSlideIndex : Int) < (sampleP.slides.length : Int) - 1 ∧
       ((sampleP.slides.getD sampleState.currentSlideIndex defaultSlide).duration : Int) * 1000
           + 10000 < (20000 : Int) - (sampleState.lastSlideChange : Int))) ∧
    (stabilityCheckAction 20000 sampleState = WatchdogAction.forceWrap ↔
      (sampleState.isPlaying = true ∧
       (20000 : Int) - (sampleState.lastSlideChange : Int) ≤ 120000 ∧
       sampleState.isLooping = true ∧
       (sampleState.currentSlideIndex : Int) = (sampleP.slides.length : Int) - 1 ∧
       ((sampleP.slides.getD sampleState.currentSlideIndex defaultSlide).duration : Int) * 1000
           + 15000 < (20000 : Int) - (sampleState.lastSlideChange : Int))) ∧
    ((20000 : Int) - (sampleState.lastSlideChange : Int) ≤
        ((sampleP.slides.getD sampleState.currentSlideIndex defaultSlide).duration : Int) * 1000
          + 10000 →
      stabilityCheckAction 20000 sampleState ≠ WatchdogAction.forceNext ∧
      stabilityCheckAction 20000 sampleState ≠ WatchdogAction.forceWrap) :=
  c2_watchdog_force_iff_overdue 20000 sampleState sampleP rfl

/-- Witness for C3 at the sample state. -/
theorem c3_witness_sample :
    (pauseEvent 0 sampleState).timeRemaining = sampleState.timeRemaining ∧
    (playEvent 0 sampleState).timeRemaining =
      max ((sampleP.slides.getD sampleState.currentSlideIndex defaultSlide).duration * 1000)
        1000 :=
  c3_pause_freezes_play_rearms_full 0 0 sampleState sampleP rfl (by decide) rfl

/-- Witness for C4 at the sample looping state. -/
theorem c4_witness_sample :
    (advanceN 0 sampleP.slides.length loopState).currentSlideIndex =
      loopState.currentSlideIndex ∧
    (advanceN 0 sampleP.slides.length loopState).loopCount = loopState.loopCount + 1 :=
  c4_looping_n_advances_round_trip 0 loopState sampleP rfl rfl rfl (by decide)

/-- Witness for C5 at the sample last-slide state. -/
theorem c5_witness_sample :
    (nextSlide 0 lastState).1.isPlaying = false ∧
    (nextSlide 0 lastState).1.currentSlideIndex = 0 ∧
    (nextSlide 0 lastState).1.loopCount = lastState.loopCount :=
  c5_nonlooping_end_stops_and_resets 0 lastState sampleP rfl rfl rfl rfl

/-- Witness for C6 at the sample state. -/
theorem c6_witness_sample :
    (startSlideTimer 0 sampleState).timeRemaining =
      max ((sampleP.slides.getD sampleState.currentSlideIndex defaultSlide).duration * 1000)
        1000 ∧
    1000 ≤ (startSlideTimer 0 sampleState).timeRemaining ∧
    (startSlideTimer 0 sampleState).timerActive = true :=
  c6_min_armed_duration 0 sampleState sampleP rfl (by decide) rfl

/-- Witness for C7 at the sample assigned last-slide state. -/
theorem c7_witness_sample :
    (nextSlide 0 assignedLastState).2 = [⟨5000, TimeoutAction.assignedRestart⟩] ∧
    (applyTimeoutAction TimeoutAction.assignedRestart 0
      (nextSlide 0 assignedLastState).1).1.isLooping = true ∧
    (applyTimeoutAction TimeoutAction.assignedRestart 0
      (nextSlide 0 assignedLastState).1).1.isPlaying = true :=
  c7_assigned_end_auto_restarts 0 0 assignedLastState sampleP rfl rfl rfl rfl rfl

/-- Witness for C8 at the sample state and index 5. -/
theorem c8_witness_sample : goToSlide 5 0 sampleState = (sampleState, []) :=
  c8_goto_out_of_range_rejected 5 0 sampleState sampleP rfl (Or.inr (by decide))

/-- Witness for C9 at the sample reboot command. -/
theorem c9_witness_sample : handleRemoteCommand rebootCommand 0 sampleState =
    (sampleState, []) :=
  c9_unknown_command_noop rebootCommand 0 sampleState (by decide) (by decide) (by decide)
    (by decide) (by decide) (by decide) (by decide)

/-- Witness for C10 at the sample state. -/
theorem c10_witness_sample :
    (handleImageError 9 sampleState).1.errorRecoveryAttempts =
      sampleState.errorRecoveryAttempts + 1 ∧
    ((handleImageError 9 sampleState).2 =
      if sampleState.errorRecoveryAttempts + 1 ≤ maxErrorRecoveryAttempts then
        [⟨2000, TimeoutAction.errorSkip⟩] else []) ∧
    (sampleState.isPlaying = false →
      applyTimeoutAction TimeoutAction.errorSkip 0 sampleState = (sampleState, [])) ∧
    (∀ p, sampleState.presentation = some p → p.slides.length ≤ 1 →
      applyTimeoutAction TimeoutAction.errorSkip 0 sampleState = (sampleState, [])) ∧
    (restartPresentation 0 sampleState).errorRecoveryAttempts = 0 ∧
    (retryLoadPresentation sampleState).errorRecoveryAttempts = 0 ∧
    (nextSlide 0 sampleState).1.errorRecoveryAttempts =
      sampleState.errorRecoveryAttempts ∧
    (previousSlide 0 sampleState).1.errorRecoveryAttempts =
      sampleState.errorRecoveryAttempts ∧
    (goToSlide 1 0 sampleState).1.errorRecoveryAttempts =
      sampleState.errorRecoveryAttempts ∧
    (togglePlayPause sampleState).errorRecoveryAttempts =
      sampleState.errorRecoveryAttempts ∧
    (toggleLoop sampleState).errorRecoveryAttempts = sampleState.errorRecoveryAttempts ∧
    (startSlideTimer 0 sampleState).errorRecoveryAttempts =
      sampleState.errorRecoveryAttempts ∧
    (timerTick 0 sampleState).1.errorRecoveryAttempts =
      sampleState.errorRecoveryAttempts ∧
    (handleRemoteCommand playCommand 0 sampleState).1.errorRecoveryAttempts =
      sampleState.errorRecoveryAttempts :=
  c10_session_wide_error_counter 9 1 playCommand 0 sampleState (by decide)

end AD0631
